import Mathlib

/-!
# Verification of the Twitch chat viewer's chat-session core

Shallow embedding of the `TwitchClient` session (src/config.ts, second
document: the tmi.js-based client) and the `EmoteService` catalog merger
(src/emoteService.ts).  Network responses are passed in as explicit
oracle arguments; emitted callback events are returned as lists; the
mutable fields of the `TwitchClient` object form the `ClientState`
structure.  Wall-clock timestamps (`Date.now()`) and the raw IRC `emotes`
placement map are omitted from the event structure: no claim mentions
them.
-/

namespace TwitchChatViewer

/-! ## JavaScript semantics helpers -/

/-- JS `a || d` on an optional string: `undefined` and the empty string
are falsy, any other string is returned as-is. -/
def jsOrStr (o : Option String) (d : String) : String :=
  match o with
  | none => d
  | some s => if s = "" then d else s

/-- JS `a || d` on an optional integer: `undefined`, `NaN` (modelled as
`none`) and `0` are falsy. -/
def jsOrInt (o : Option Int) (d : Int) : Int :=
  match o with
  | none => d
  | some n => if n = 0 then d else n

/-- JS truthiness of an optional string tag (`undefined` and `""` falsy). -/
def jsTruthyStr (o : Option String) : Bool :=
  match o with
  | none => false
  | some s => !(s = "")

/-- Leading-digits integer parse, JS `parseInt` on a trimmed string:
an optional sign followed by at least one digit; `none` models `NaN`. -/
def jsParseInt (s : String) : Option Int :=
  let digits (l : List Char) : Option Nat :=
    let ds := l.takeWhile Char.isDigit
    if ds.isEmpty then none
    else some (ds.foldl (fun acc c => acc * 10 + (c.toNat - 48)) 0)
  match s.data with
  | '-' :: rest => (digits rest).map (fun n => -(n : Int))
  | '+' :: rest => (digits rest).map (fun n => (n : Int))
  | l => (digits l).map (fun n => (n : Int))

/-- `charsStart p s`: the char list `p` starts the char list `s`. -/
def charsStart : List Char → List Char → Bool
  | [], _ => true
  | _ :: _, [] => false
  | p :: ps, c :: cs => p == c && charsStart ps cs

/-- JS `s.startsWith(pat)`. -/
def jsStartsWith (s pat : String) : Bool :=
  charsStart pat.data s.data

/-- Remove the first occurrence of `pat` from a char list. -/
def removeFirstOcc (pat : List Char) : List Char → List Char
  | [] => []
  | c :: cs =>
    if charsStart pat (c :: cs) then (c :: cs).drop pat.length
    else c :: removeFirstOcc pat cs

/-- JS `s.replace(pat, '')` with a plain-string pattern: removes only the
first occurrence of `pat`. -/
def replaceFirst (s pat : String) : String :=
  ⟨removeFirstOcc pat.data s.data⟩

/-- JS `s.trim()`: whitespace stripped from both ends. -/
def jsTrim (s : String) : String :=
  ⟨(((s.data.dropWhile Char.isWhitespace).reverse).dropWhile Char.isWhitespace).reverse⟩

/-- JS `s.toLowerCase()` (ASCII case folding). -/
def jsToLower (s : String) : String :=
  ⟨s.data.map Char.toLower⟩

/-- Truncation to a 32-bit two's-complement signed integer (the effect of
JS `x | 0`, `x & x`, and `<<` result coercion). -/
def toInt32 (n : Int) : Int :=
  (n + 2 ^ 31) % 2 ^ 32 - 2 ^ 31

/-! ## Deterministic fallback color (src/config.ts lines 544-561) -/

/-- The fixed 15-entry fallback palette of `getDeterministicColor`
(src/config.ts lines 545-549). -/
def twitchColors : List String :=
  ["#FF0000", "#0000FF", "#008000", "#B22222", "#FF7F50",
   "#9ACD32", "#FF4500", "#2E8B57", "#DAA520", "#D2691E",
   "#5F9EA0", "#1E90FF", "#FF69B4", "#8A2BE2", "#00FF7F"]

/-- One iteration of the username hash:
`hash = charCode + ((hash << 5) - hash); hash = hash & hash`.
`hash << 5` wraps to int32, the sum is exact, `& hash` wraps to int32. -/
def hashStep (h : Int) (c : Char) : Int :=
  toInt32 ((c.toNat : Int) + (toInt32 (h * 32) - h))

/-- The username hash loop of `getDeterministicColor`. -/
def hashUsername (u : String) : Int :=
  u.data.foldl hashStep 0

/-- `Math.abs(hash) % colors.length` (src/config.ts line 559). -/
def colorIndex (u : String) : Nat :=
  (hashUsername u).natAbs % twitchColors.length

/-- `getDeterministicColor` (src/config.ts lines 544-561): hash the
username and index into the fixed palette. -/
def getDeterministicColor (u : String) : String :=
  twitchColors.getD (colorIndex u) ""

/-- `tags.color || this.getDeterministicColor(username)`: the session's
color resolution for user-originated events. -/
def resolveUserColor (tagColor : Option String) (username : String) : String :=
  jsOrStr tagColor (getDeterministicColor username)

/-! ## Session data model -/

/-- The `messageType` discriminator of `TwitchMessage` (src/config.ts
line 49). -/
inductive MessageType
  | chat
  | subscription
  | resub
  | subgift
  | bits
  | system
deriving DecidableEq, Repr

/-- The `followersOnly` component of a room-state update: the code sends
either the parsed minute value or the JS literal `false` (off). -/
inductive FollowersOnlyState
  | off
  | minutes (n : Int)
deriving DecidableEq, Repr

/-- The `roomStateUpdate` payload attached to room-state events; each
emitter fills only some fields (the ROOMSTATE handler fills the first
four, the shield emitters only `shieldMode`). -/
structure RoomStateUpdate where
  subsOnly : Option Bool
  emotesOnly : Option Bool
  followersOnly : Option FollowersOnlyState
  slowMode : Option Int
  shieldMode : Option Bool
deriving DecidableEq, Repr

/-- A room-state payload with every field absent. -/
def emptyRoomStateUpdate : RoomStateUpdate :=
  { subsOnly := none, emotesOnly := none, followersOnly := none,
    slowMode := none, shieldMode := none }

/-- The `TwitchMessage` event record handed to the registered callback
(src/config.ts lines 38-55 plus the dynamically attached
`roomStateUpdate` / `deletedMessageId` / `deletedUsername` /
`clearAllMessages` fields).  `timestamp` (`Date.now()`) and the native
IRC `emotes` placement map are omitted: no claim depends on them. -/
structure TwitchMessage where
  username : String
  displayName : String
  message : String
  color : String
  badges : List String
  thirdPartyEmotes : List (String × String)
  messageId : Option String
  isFirstMessage : Option Bool
  messageType : MessageType
  bits : Option Int
  subMonths : Option Int
  subTier : Option String
  gifterName : Option String
  recipientName : Option String
  roomStateUpdate : Option RoomStateUpdate
  deletedMessageId : Option String
  deletedUsername : Option String
  clearAllMessages : Bool
deriving DecidableEq, Repr

/-- Event with every optional field absent and every string empty; the
emitters below override the fields the source sets explicitly. -/
def emptyEvent : TwitchMessage :=
  { username := "", displayName := "", message := "", color := "",
    badges := [], thirdPartyEmotes := [], messageId := none,
    isFirstMessage := none, messageType := MessageType.chat, bits := none,
    subMonths := none, subTier := none, gifterName := none,
    recipientName := none, roomStateUpdate := none,
    deletedMessageId := none, deletedUsername := none,
    clearAllMessages := false }

/-- The mutable fields of the `TwitchClient` object (src/config.ts lines
61-71).  `client` and `messageCallbackSet` model nullability of the tmi.js
handle and of the registered callback; the emote service's own caches are
not part of the session state. -/
structure ClientState where
  client : Bool
  currentChannel : String
  currentUsername : Option String
  currentUserId : Option String
  currentUserColor : Option String
  messageCallbackSet : Bool
  thirdPartyEmotes : List (String × String)
  shieldModePollingInterval : Bool
  authToken : Option String
deriving DecidableEq, Repr

/-- IRC userstate/tags as used by the message and subscription handlers:
`username`, `display-name`, `color`, `badges` (an object whose keys are
badge names), `bits`, `id`, `first-msg`, `msg-param-cumulative-months`.
`firstMsg` carries the truth of `tag === true || tag === '1'`. -/
structure MessageTags where
  username : Option String
  displayName : Option String
  color : Option String
  badges : Option (List (String × String))
  bits : Option String
  id : Option String
  firstMsg : Bool
  msgParamCumulativeMonths : Option String
deriving DecidableEq, Repr

/-- `parseBadges` (src/config.ts lines 534-537): `Object.keys(badges)`,
or `[]` when absent. -/
def parseBadges (badges : Option (List (String × String))) : List String :=
  match badges with
  | none => []
  | some bs => bs.map Prod.fst

/-! ## Inbound protocol frame handlers (src/config.ts lines 197-414) -/

/-- The `message` handler (src/config.ts lines 197-219).  Returns the
events delivered to the callback: none when `self` is set or no callback
is registered, otherwise the one normalized chat event. -/
def handleMessage (st : ClientState) (tags : MessageTags) (text : String)
    (self : Bool) : List TwitchMessage :=
  if self || !st.messageCallbackSet then []
  else
    let username := jsOrStr tags.username "anonymous"
    [ { emptyEvent with
        username := username,
        displayName := jsOrStr tags.displayName (jsOrStr tags.username "Anonymous"),
        message := text,
        color := resolveUserColor tags.color username,
        badges := parseBadges tags.badges,
        thirdPartyEmotes := st.thirdPartyEmotes,
        messageId := tags.id,
        isFirstMessage := some tags.firstMsg,
        messageType := if jsTruthyStr tags.bits then MessageType.bits else MessageType.chat,
        bits := if jsTruthyStr tags.bits then jsParseInt (jsOrStr tags.bits "") else none } ]

/-- The `subscription` handler (src/config.ts lines 222-240). -/
def handleSubscription (st : ClientState) (username : String)
    (methodPlan : Option String) (message : Option String)
    (userstate : MessageTags) : List TwitchMessage :=
  if !st.messageCallbackSet then []
  else
    [ { emptyEvent with
        username := username,
        displayName := jsOrStr userstate.displayName username,
        message := jsOrStr message "just subscribed!",
        color := resolveUserColor userstate.color username,
        badges := parseBadges userstate.badges,
        thirdPartyEmotes := st.thirdPartyEmotes,
        messageType := MessageType.subscription,
        subTier := some (jsOrStr methodPlan "Prime") } ]

/-- The `resub` handler (src/config.ts lines 243-264).
`cumulativeMonths = parseInt(userstate[...] || '0') || months`. -/
def handleResub (st : ClientState) (username : String) (months : Int)
    (message : Option String) (userstate : MessageTags)
    (methodsPlan : Option String) : List TwitchMessage :=
  if !st.messageCallbackSet then []
  else
    let cumulativeMonths :=
      jsOrInt (jsParseInt (jsOrStr userstate.msgParamCumulativeMonths "0")) months
    [ { emptyEvent with
        username := username,
        displayName := jsOrStr userstate.displayName username,
        message := jsOrStr message
          ("resubscribed for " ++ toString cumulativeMonths ++ " months!"),
        color := resolveUserColor userstate.color username,
        badges := parseBadges userstate.badges,
        thirdPartyEmotes := st.thirdPartyEmotes,
        messageType := MessageType.resub,
        subMonths := some cumulativeMonths,
        subTier := some (jsOrStr methodsPlan "Prime") } ]

/-- The `subgift` handler (src/config.ts lines 267-287). -/
def handleSubgift (st : ClientState) (username : String) (recipient : String)
    (methodsPlan : Option String) (userstate : MessageTags) : List TwitchMessage :=
  if !st.messageCallbackSet then []
  else
    [ { emptyEvent with
        username := username,
        displayName := jsOrStr userstate.displayName username,
        message := "gifted a subscription to " ++ recipient ++ "!",
        color := resolveUserColor userstate.color username,
        badges := parseBadges userstate.badges,
        thirdPartyEmotes := st.thirdPartyEmotes,
        messageType := MessageType.subgift,
        gifterName := some username,
        recipientName := some recipient,
        subTier := some (jsOrStr methodsPlan "1000") } ]

/-- The `submysterygift` handler (src/config.ts lines 290-309). -/
def handleSubmysterygift (st : ClientState) (username : String)
    (numbOfSubs : Int) (methodsPlan : Option String)
    (userstate : MessageTags) : List TwitchMessage :=
  if !st.messageCallbackSet then []
  else
    [ { emptyEvent with
        username := username,
        displayName := jsOrStr userstate.displayName username,
        message := "gifted " ++ toString numbOfSubs ++ " subscriptions to the community!",
        color := resolveUserColor userstate.color username,
        badges := parseBadges userstate.badges,
        thirdPartyEmotes := st.thirdPartyEmotes,
        messageType := MessageType.subgift,
        gifterName := some username,
        subTier := some (jsOrStr methodsPlan "1000") } ]

/-- ROOMSTATE tags after numeric decoding: `subsOnly` and `emotesOnly`
carry the truth of `tag === '1' || tag === true`; `followersOnlyValue`
carries `tags['followers-only'] ? parseInt(...) : -1`; `slowMode` carries
`tags['slow'] ? parseInt(...) : 0`. -/
structure RoomStateTags where
  subsOnly : Bool
  emotesOnly : Bool
  followersOnlyValue : Int
  slowMode : Int
deriving DecidableEq, Repr

/-- The ROOMSTATE branch of the `raw_message` handler (src/config.ts
lines 314-338): emits a room-state event with an empty `color`. -/
def handleRoomState (st : ClientState) (tags : Option RoomStateTags) :
    List TwitchMessage :=
  match tags with
  | none => []
  | some t =>
    if st.messageCallbackSet then
      [ { emptyEvent with
          messageType := MessageType.chat,
          roomStateUpdate := some
            { emptyRoomStateUpdate with
              subsOnly := some t.subsOnly,
              emotesOnly := some t.emotesOnly,
              followersOnly := some
                (if t.followersOnlyValue ≠ -1
                 then FollowersOnlyState.minutes t.followersOnlyValue
                 else FollowersOnlyState.off),
              slowMode := some t.slowMode } } ]
    else []

/-- The CLEARMSG branch of the `raw_message` handler (src/config.ts lines
352-371): requires a truthy `target-msg-id` tag and a callback. -/
def handleClearMsg (st : ClientState) (targetMsgId : Option String) :
    List TwitchMessage :=
  if jsTruthyStr targetMsgId && st.messageCallbackSet then
    [ { emptyEvent with
        messageId := targetMsgId,
        messageType := MessageType.chat,
        deletedMessageId := targetMsgId } ]
  else []

/-- The CLEARCHAT branch of the `raw_message` handler (src/config.ts
lines 373-413): a second IRC parameter names a purged user, otherwise the
whole chat was cleared. -/
def handleClearChat (st : ClientState) (params : List String) :
    List TwitchMessage :=
  if params.length > 1 then
    let username := params.getD 1 ""
    if st.messageCallbackSet then
      [ { emptyEvent with
          username := username,
          messageType := MessageType.chat,
          deletedUsername := some username } ]
    else []
  else
    if st.messageCallbackSet then
      [ { emptyEvent with
          messageType := MessageType.chat,
          clearAllMessages := true } ]
    else []

/-! ## connect / disconnect (src/config.ts lines 146-213, 512-527) -/

/-- Outcome of the pre-transport phase of `connect`: either the silent
no-op, or a transport connection attempt on the normalized channel. -/
inductive ConnectOutcome
  | noop
  | attempt (normalizedChannel : String)
deriving DecidableEq, Repr

/-- The empty-channel guard of `connect` (src/config.ts line 155):
`!channel || channel.trim() === ''`, evaluated on the RAW input, before
any normalization. -/
def connectChannelGuard (channel : String) : Bool :=
  channel == "" || jsTrim channel == ""

/-- The channel normalization of `connect` (src/config.ts line 160):
`channel.replace('#', '').toLowerCase().trim()` (JS `replace` with a
string pattern removes only the first occurrence). -/
def normalizeChannel (channel : String) : String :=
  jsTrim (jsToLower (replaceFirst channel "#"))

/-- The pre-transport phase of `connect` (src/config.ts lines 146-162):
guard on the raw input first, then normalize and proceed to the transport
connection.  (When already connected the code tears the old connection
down before this guard; that teardown does not read the channel
argument.) -/
def connectPre (channel : String) : ConnectOutcome :=
  if connectChannelGuard channel then ConnectOutcome.noop
  else ConnectOutcome.attempt (normalizeChannel channel)

/-- `stopShieldModePolling` (src/config.ts lines 1163-1169). -/
def stopShieldModePolling (st : ClientState) : ClientState :=
  if st.shieldModePollingInterval then
    { st with shieldModePollingInterval := false }
  else st

/-- `disconnect` (src/config.ts lines 512-527): when a client handle
exists, drop it, clear the emote catalog, stop the poll timer and forget
the auth token; otherwise do nothing. -/
def disconnect (st : ClientState) : ClientState :=
  if st.client then
    let st1 := { st with client := false, thirdPartyEmotes := [] }
    let st2 := stopShieldModePolling st1
    { st2 with authToken := none }
  else st

/-! ## sendMessage (src/config.ts lines 585-629) -/

/-- `BROADCASTER_BADGE_URL` (src/config.ts line 59). -/
def broadcasterBadgeUrl : String :=
  "https://static-cdn.jtvnw.net/badges/v1/5527c58c-fb7d-422d-b71b-f309dcb85cc1/1"

/-- The synthetic self-message emitted after a successful `say`
(src/config.ts lines 603-623). -/
def selfMessage (st : ClientState) (u : String) (message : String) : TwitchMessage :=
  { emptyEvent with
    username := u,
    displayName := u,
    message := message,
    color := jsOrStr st.currentUserColor "#9147ff",
    badges := if u = st.currentChannel then [broadcasterBadgeUrl] else [],
    thirdPartyEmotes := st.thirdPartyEmotes,
    messageType := MessageType.chat }

/-- `sendMessage` (src/config.ts lines 585-629).  `sayOk` is the oracle
for the transport `say` call.  Returns the call result and the list of
synthetic events delivered to the callback. -/
def sendMessage (st : ClientState) (message : String) (sayOk : Bool) :
    Except String Unit × List TwitchMessage :=
  if st.client = false then (Except.error "Not connected to a channel", [])
  else if st.currentChannel = "" then (Except.error "No active channel", [])
  else
    match st.currentUsername with
    | none => (Except.error "Not authenticated", [])
    | some u =>
      if sayOk then
        if st.messageCallbackSet then (Except.ok (), [selfMessage st u message])
        else (Except.ok (), [])
      else (Except.error "say failed", [])

/-! ## moderate (src/config.ts lines 647-751) -/

/-- A network operation attempted by `moderate`, in order: Helix user
lookups and the three moderation REST endpoints. -/
inductive NetCall
  | userLookup (login : String)
  | banUser (broadcasterId moderatorId userId : String) (duration : Option Int)
  | unbanUser (broadcasterId moderatorId userId : String)
  | deleteMessage (broadcasterId moderatorId messageId : String)
deriving DecidableEq, Repr

/-- `getModerationDuration` (src/config.ts lines 742-751): `ban` means no
duration (permanent), `timeout-N` parses `N` defaulting to 600 on parse
failure, anything else throws. -/
def getModerationDuration (action : String) : Except String (Option Int) :=
  if action = "ban" then Except.ok none
  else if jsStartsWith action "timeout-" then
    let part := (action.splitOn "-").getD 1 ""
    Except.ok (some (match jsParseInt part with
      | some n => n
      | none => 600))
  else Except.error ("Unknown action: " ++ action)

/-- `moderate` (src/config.ts lines 647-689) together with the
`messageId` guard of `apiDeleteMessage` (lines 845-850).  The lookup
oracles give the Helix responses for the broadcaster and target id
lookups; `restOk` is the oracle for the final REST call.  Returns the
call result and the ordered list of network calls attempted. -/
def moderate (st : ClientState) (action username : String)
    (messageId : Option String) (broadcasterLookup targetLookup : Option String)
    (restOk : Bool) : Except String Unit × List NetCall :=
  if st.currentChannel = "" then (Except.error "No active channel", [])
  else
    match st.currentUserId with
    | none => (Except.error "Not authenticated - moderation requires authentication", [])
    | some moderatorId =>
      let lookupBroadcaster := NetCall.userLookup st.currentChannel
      match broadcasterLookup with
      | none =>
        (Except.error ("Could not get broadcaster ID for channel " ++ st.currentChannel),
         [lookupBroadcaster])
      | some broadcasterId =>
        let lookupTarget := NetCall.userLookup username
        match targetLookup with
        | none =>
          (Except.error ("Could not find user: " ++ username),
           [lookupBroadcaster, lookupTarget])
        | some targetId =>
          if action = "delete" then
            match messageId with
            | none =>
              (Except.error "Message ID is required for deletion",
               [lookupBroadcaster, lookupTarget])
            | some mid =>
              ((if restOk then Except.ok () else Except.error "HTTP error"),
               [lookupBroadcaster, lookupTarget,
                NetCall.deleteMessage broadcasterId moderatorId mid])
          else if action = "untimeout" then
            ((if restOk then Except.ok () else Except.error "HTTP error"),
             [lookupBroadcaster, lookupTarget,
              NetCall.unbanUser broadcasterId moderatorId targetId])
          else
            match getModerationDuration action with
            | Except.error e => (Except.error e, [lookupBroadcaster, lookupTarget])
            | Except.ok dur =>
              ((if restOk then Except.ok () else Except.error "HTTP error"),
               [lookupBroadcaster, lookupTarget,
                NetCall.banUser broadcasterId moderatorId targetId dur])

/-! ## Shield-mode polling (src/config.ts lines 1106-1169) -/

/-- The guard at the top of `pollShieldMode` (src/config.ts lines
1130-1132), checked before the status fetch is issued. -/
def pollShieldModeGuard (st : ClientState) : Bool :=
  st.authToken.isSome && st.currentUserId.isSome

/-- The room-state event built by `pollShieldMode` (src/config.ts lines
1139-1152): empty strings throughout, only `shieldMode` set. -/
def shieldModeUpdateEvent (isActive : Bool) : TwitchMessage :=
  { emptyEvent with
    messageType := MessageType.chat,
    roomStateUpdate := some { emptyRoomStateUpdate with shieldMode := some isActive } }

/-- The delivery step of `pollShieldMode` after the status fetch resolves
(src/config.ts lines 1138-1153): the only condition re-checked after the
await is `this.messageCallback`. -/
def pollShieldModeEmit (st : ClientState) (isActive : Bool) : List TwitchMessage :=
  if st.messageCallbackSet then [shieldModeUpdateEvent isActive] else []

/-- One recurring-timer tick: `setInterval` fires only while the interval
handle exists, the tick runs `pollShieldMode`, whose guard and delivery
both see the same state when no disconnect interleaves. -/
def pollTickEmits (st : ClientState) (isActive : Bool) : List TwitchMessage :=
  if st.shieldModePollingInterval then
    if pollShieldModeGuard st then pollShieldModeEmit st isActive else []
  else []

/-! ## Emote catalog merging (src/emoteService.ts) -/

/-- JS `Map.prototype.set`: overwrite in place when the key exists,
append otherwise. -/
def jsMapSet : List (String × String) → String → String → List (String × String)
  | [], k, v => [(k, v)]
  | (k0, v0) :: rest, k, v =>
    if k0 = k then (k, v) :: rest else (k0, v0) :: jsMapSet rest k v

/-- `entries.forEach((url, name) => target.set(name, url))`. -/
def jsMapSetAll (target : List (String × String))
    (entries : List (String × String)) : List (String × String) :=
  entries.foldl (fun acc e => jsMapSet acc e.1 e.2) target

/-- JS `Map.prototype.get` as an association-list lookup. -/
def mapGet : List (String × String) → String → Option String
  | [], _ => none
  | (k0, v0) :: rest, k => if k0 = k then some v0 else mapGet rest k

/-- The value of the LAST insertion for a key (JS set semantics make the
last writer win). -/
def lastGet (m : List (String × String)) (k : String) : Option String :=
  mapGet m.reverse k

/-- `Option` fallback used to state merge precedence: the left (later
fetched) catalog wins. -/
def orElseO (a b : Option String) : Option String :=
  match a with
  | some v => some v
  | none => b

/-- `fetchFFZEmotes` merge order (src/emoteService.ts lines 55-77):
global entries inserted first, channel entries second. -/
def fetchFFZEmotes (globalEmotes channelEmotes : List (String × String)) :
    List (String × String) :=
  jsMapSetAll (jsMapSetAll [] globalEmotes) channelEmotes

/-- `fetchBTTVEmotes` merge order (src/emoteService.ts lines 208-255):
global, then channel, then shared entries. -/
def fetchBTTVEmotes (globalEmotes channelEmotes sharedEmotes : List (String × String)) :
    List (String × String) :=
  jsMapSetAll (jsMapSetAll (jsMapSetAll [] globalEmotes) channelEmotes) sharedEmotes

/-- `fetch7TVEmotes` merge order (src/emoteService.ts lines 262-304):
global then channel entries. -/
def fetch7TVEmotes (globalEmotes channelEmotes : List (String × String)) :
    List (String × String) :=
  jsMapSetAll (jsMapSetAll [] globalEmotes) channelEmotes

/-- `fetchAllEmotes` (src/emoteService.ts lines 25-48): FFZ entries
first; BTTV and 7TV only when the numeric channel id is present, fetched
and inserted in that order. -/
def fetchAllEmotes (ffz bttv sevenTv : List (String × String))
    (channelUserIdPresent : Bool) : List (String × String) :=
  let allEmotes := jsMapSetAll [] ffz
  if channelUserIdPresent then
    jsMapSetAll (jsMapSetAll allEmotes bttv) sevenTv
  else allEmotes

/-! ## FFZ URL normalization (src/emoteService.ts lines 187-201) -/

/-- The URL branch of `getFFZEmoteUrl`: protocol-relative URLs get
`https:`, URLs starting with the literal `http` are returned unchanged,
everything else gets `https://`. -/
def normalizeFFZUrl (url : String) : String :=
  if jsStartsWith url "//" then "https:" ++ url
  else if jsStartsWith url "http" then url
  else "https://" ++ url

/-- `getFFZEmoteUrl` (src/emoteService.ts lines 187-201):
`urls['1'] || urls['2'] || urls['4']`, null when the chain is falsy,
otherwise the normalized URL. -/
def getFFZEmoteUrl (u1 u2 u4 : Option String) : Option String :=
  let url := jsOrStr u1 (jsOrStr u2 (jsOrStr u4 ""))
  if url = "" then none else some (normalizeFFZUrl url)

/-- Scheme-body scan used by `specUrlHasScheme`: letters, digits, `+`,
`-` or `.` up to a `:`. -/
def schemeTail : List Char → Bool
  | [] => false
  | c :: cs =>
    if c = ':' then true
    else if c.isAlphanum || c = '+' || c = '-' || c = '.' then schemeTail cs
    else false

/-- Following the specification wording only (not the source): a URL
"has a scheme" when it begins with an RFC 3986 scheme, a letter followed
by letters, digits, `+`, `-` or `.` up to a `:`.  Used to compare the
spec's normalization clause with the source's `startsWith('http')`
criterion. -/
def specUrlHasScheme (s : String) : Bool :=
  match s.data with
  | [] => false
  | c :: cs => c.isAlpha && schemeTail cs

/-! ## Example states used by counterexamples and witnesses -/

/-- A connected, authenticated session with the poll timer running. -/
def stExample : ClientState :=
  { client := true,
    currentChannel := "somechannel",
    currentUsername := some "someuser",
    currentUserId := some "123",
    currentUserColor := some "#ABCDEF",
    messageCallbackSet := true,
    thirdPartyEmotes := [("Kappa", "https://cdn.example/kappa.png")],
    shieldModePollingInterval := true,
    authToken := some "tok" }

/-- Example ROOMSTATE tags: all modes off. -/
def rsTagsExample : RoomStateTags :=
  { subsOnly := false, emotesOnly := false, followersOnlyValue := -1, slowMode := 0 }

/-- A connected but unauthenticated session (no resolved login). -/
def stNoAuthExample : ClientState :=
  { stExample with currentUsername := none, currentUserId := none, authToken := none }

/-! ## Theorems -/

theorem twitchColors_getD_mem_of_lt :
    ∀ n : Nat, n < 15 → twitchColors.getD n "" ∈ twitchColors ∧ twitchColors.getD n "" ≠ "" := by
  decide

theorem twitchColors_length : twitchColors.length = 15 := by
  rfl

theorem colorIndex_lt (u : String) : colorIndex u < 15 := by
  have h : (0 : Nat) < twitchColors.length := by decide
  simpa [twitchColors_length] using Nat.mod_lt (hashUsername u).natAbs h

theorem getDeterministicColor_mem (u : String) : getDeterministicColor u ∈ twitchColors :=
  (twitchColors_getD_mem_of_lt (colorIndex u) (colorIndex_lt u)).1

theorem getDeterministicColor_ne_empty (u : String) : getDeterministicColor u ≠ "" :=
  (twitchColors_getD_mem_of_lt (colorIndex u) (colorIndex_lt u)).2

theorem jsOrStr_ne_empty (o : Option String) (d : String) (hd : d ≠ "") :
    jsOrStr o d ≠ "" := by
  cases o with
  | none => simpa [jsOrStr] using hd
  | some s =>
    by_cases h : s = "" <;> simp [jsOrStr, h, hd]

theorem resolveUserColor_ne_empty (tagColor : Option String) (u : String) :
    resolveUserColor tagColor u ≠ "" :=
  jsOrStr_ne_empty tagColor _ (getDeterministicColor_ne_empty u)

/-- C6: the fallback color assignment is a pure, deterministic function of
the username string (it is a plain function in this embedding, with no
state, time, or randomness input); the palette has exactly 15 entries; the
result always comes from that palette; and it is exactly what the session
substitutes whenever the protocol supplies no color. -/
theorem deterministic_color_pure_palette :
    twitchColors.length = 15 ∧
    (∀ u : String, getDeterministicColor u ∈ twitchColors) ∧
    (∀ u : String, resolveUserColor none u = getDeterministicColor u) := by
  refine ⟨twitchColors_length, fun u => getDeterministicColor_mem u, fun u => rfl⟩

/-- C10: for every username string the computed palette index
`Math.abs(hash) % 15` is in `[0, 15)`, so palette indexing is total and
never yields `undefined`. -/
theorem color_index_in_range :
    ∀ u : String, colorIndex u < twitchColors.length ∧
      (twitchColors.get? (colorIndex u)).isSome = true := by
  intro u
  have hlt : colorIndex u < 15 := colorIndex_lt u
  have haux : ∀ n : Nat, n < 15 → (twitchColors.get? n).isSome = true := by decide
  exact ⟨by simpa [twitchColors_length] using hlt, haux _ hlt⟩

/-- C1 counterexample: the ROOMSTATE handler, on a connected session with
a registered callback, emits a room-state event whose `color` field is the
empty string — refuting the claim that every emitted event (including
room-state updates) carries a non-empty color. -/
theorem roomstate_event_empty_color :
    (handleRoomState stExample (some rsTagsExample)).map TwitchMessage.color = [""] ∧
    stExample.messageCallbackSet = true := by
  exact ⟨rfl, rfl⟩

/-- C1 amended: events that originate from a user (chat messages,
subscriptions, resubs, gift subs, mystery gifts, and the synthetic
self-message) always carry a non-empty resolved color — the deterministic
username hash supplies one when the protocol's color tag is absent or
empty — but room-state updates, message deletions, user purges,
clear-all events, and shield-mode poll updates are emitted with an empty
`color` field. -/
theorem emitted_event_color_resolution :
    ∀ (st : ClientState) (tags userstate : MessageTags) (text : String)
      (self : Bool) (username recipient u msgText : String)
      (months numbOfSubs : Int) (plan msgO : Option String)
      (rsTags : Option RoomStateTags) (targetMsgId : Option String)
      (params : List String) (isActive : Bool),
      ((handleMessage st tags text self).all fun e => !(e.color == "")) = true ∧
      ((handleSubscription st username plan msgO userstate).all fun e => !(e.color == "")) = true ∧
      ((handleResub st username months msgO userstate plan).all fun e => !(e.color == "")) = true ∧
      ((handleSubgift st username recipient plan userstate).all fun e => !(e.color == "")) = true ∧
      ((handleSubmysterygift st username numbOfSubs plan userstate).all fun e => !(e.color == "")) = true ∧
      (!((selfMessage st u msgText).color == "")) = true ∧
      ((handleRoomState st rsTags).all fun e => e.color == "") = true ∧
      ((handleClearMsg st targetMsgId).all fun e => e.color == "") = true ∧
      ((handleClearChat st params).all fun e => e.color == "") = true ∧
      ((pollShieldModeEmit st isActive).all fun e => e.color == "") = true := by
  intro st tags userstate text self username recipient u msgText months
    numbOfSubs plan msgO rsTags targetMsgId params isActive
  refine ⟨?_, ?_, ?_, ?_, ?_, ?_, ?_, ?_, ?_, ?_⟩
  · unfold handleMessage
    split
    · rfl
    · simp [List.all, resolveUserColor_ne_empty]
  · unfold handleSubscription
    split
    · rfl
    · simp [List.all, resolveUserColor_ne_empty]
  · unfold handleResub
    split
    · rfl
    · simp [List.all, resolveUserColor_ne_empty]
  · unfold handleSubgift
    split
    · rfl
    · simp [List.all, resolveUserColor_ne_empty]
  · unfold handleSubmysterygift
    split
    · rfl
    · simp [List.all, resolveUserColor_ne_empty]
  · simp [selfMessage, jsOrStr_ne_empty st.currentUserColor "#9147ff" (by decide)]
  · cases rsTags with
    | none => rfl
    | some t =>
      by_cases hcb : st.messageCallbackSet = true <;>
        simp [handleRoomState, hcb, List.all, emptyEvent]
  · unfold handleClearMsg
    split
    · simp [List.all, emptyEvent]
    · rfl
  · unfold handleClearChat
    split
    · split
      · simp [List.all, emptyEvent]
      · rfl
    · split
      · simp [List.all, emptyEvent]
      · rfl
  · unfold pollShieldModeEmit
    split
    · simp [List.all, shieldModeUpdateEvent, emptyEvent]
    · rfl

/-- C2 counterexample: a poll that has passed its guard before
`disconnect()` (in flight) still delivers its shield-mode room-state
update afterwards, because the only post-fetch check is the message
callback, which `disconnect()` never clears. -/
theorem poll_delivery_after_disconnect :
    pollShieldModeGuard stExample = true ∧
    (disconnect stExample).shieldModePollingInterval = false ∧
    pollShieldModeEmit (disconnect stExample) true = [shieldModeUpdateEvent true] := by
  exact ⟨rfl, rfl, rfl⟩

/-- C2 amended: `disconnect()` on a connected session clears the
recurring timer, so no further tick fires and a fresh poll would stop at
its guard; but a poll already past its guard (in flight) at disconnect
time still delivers one shield-mode room-state update after disconnect
completes, since the delivery step only re-checks the callback. -/
theorem disconnect_poll_behaviour :
    ∀ (st : ClientState) (b : Bool), st.client = true → st.messageCallbackSet = true →
      (disconnect st).shieldModePollingInterval = false ∧
      pollTickEmits (disconnect st) b = [] ∧
      pollShieldModeGuard (disconnect st) = false ∧
      pollShieldModeEmit (disconnect st) b = [shieldModeUpdateEvent b] := by
  intro st b hc hcb
  have hd : disconnect st
      = { st with client := false, thirdPartyEmotes := [],
                  shieldModePollingInterval := false, authToken := none } := by
    unfold disconnect stopShieldModePolling
    by_cases hp : st.shieldModePollingInterval <;> simp [hc, hp]
  rw [hd]
  refine ⟨rfl, rfl, rfl, ?_⟩
  simp [pollShieldModeEmit, hcb]

/-- C2 witness: the amended theorem at the concrete connected example
state. -/
theorem disconnect_poll_behaviour_witness :
    (disconnect stExample).shieldModePollingInterval = false ∧
    pollTickEmits (disconnect stExample) true = [] ∧
    pollShieldModeGuard (disconnect stExample) = false ∧
    pollShieldModeEmit (disconnect stExample) true = [shieldModeUpdateEvent true] :=
  disconnect_poll_behaviour stExample true rfl rfl

/-- C5 counterexample: after `disconnect()` on a connected, authenticated
session, the channel name, login, account id and display color are all
still present — the session identity is not cleared. -/
theorem disconnect_keeps_identity :
    (disconnect stExample).client = false ∧
    (disconnect stExample).currentChannel = "somechannel" ∧
    (disconnect stExample).currentUsername = some "someuser" ∧
    (disconnect stExample).currentUserId = some "123" ∧
    (disconnect stExample).currentUserColor = some "#ABCDEF" := by
  exact ⟨rfl, rfl, rfl, rfl, rfl⟩

/-- C5 amended: `disconnect()` on a connected session drops the transport
handle, clears the emote catalog, stops the poll timer and forgets the
auth token, but leaves `currentChannel`, the authenticated login, the
authenticated account id and the authenticated display color untouched
(they are only overwritten by the next `connect()`). -/
theorem disconnect_clears_connection_not_identity :
    ∀ st : ClientState, st.client = true →
      (disconnect st).client = false ∧
      (disconnect st).thirdPartyEmotes = [] ∧
      (disconnect st).shieldModePollingInterval = false ∧
      (disconnect st).authToken = none ∧
      (disconnect st).currentChannel = st.currentChannel ∧
      (disconnect st).currentUsername = st.currentUsername ∧
      (disconnect st).currentUserId = st.currentUserId ∧
      (disconnect st).currentUserColor = st.currentUserColor := by
  intro st hc
  have hd : disconnect st
      = { st with client := false, thirdPartyEmotes := [],
                  shieldModePollingInterval := false, authToken := none } := by
    unfold disconnect stopShieldModePolling
    by_cases hp : st.shieldModePollingInterval <;> simp [hc, hp]
  rw [hd]
  exact ⟨rfl, rfl, rfl, rfl, rfl, rfl, rfl, rfl⟩

/-- C5 witness: the amended theorem at the concrete connected example
state. -/
theorem disconnect_clears_connection_not_identity_witness :
    (disconnect stExample).client = false ∧
    (disconnect stExample).thirdPartyEmotes = [] ∧
    (disconnect stExample).shieldModePollingInterval = false ∧
    (disconnect stExample).authToken = none ∧
    (disconnect stExample).currentChannel = stExample.currentChannel ∧
    (disconnect stExample).currentUsername = stExample.currentUsername ∧
    (disconnect stExample).currentUserId = stExample.currentUserId ∧
    (disconnect stExample).currentUserColor = stExample.currentUserColor :=
  disconnect_clears_connection_not_identity stExample rfl

/-- C4 counterexample: the input `"#"` normalizes to the empty channel
name, yet `connect` does not treat it as a no-op — the raw-input guard
runs before normalization, so a transport connection is attempted with an
empty normalized channel. -/
theorem connect_marker_only_not_noop :
    connectPre "#" = ConnectOutcome.attempt "" ∧
    normalizeChannel "#" = "" := by
  exact ⟨rfl, rfl⟩

/-- C4 amended: `connect`'s emptiness check runs on the RAW input (only
trimming it) before any normalization: the call is a silent no-op exactly
when the raw input trims to the empty string, and otherwise a transport
connection is attempted on the normalized (marker-stripped, lowercased,
trimmed) channel — so marker-only inputs such as `"#"` slip past the
guard even though their normalized form is empty. -/
theorem connect_guard_before_normalization :
    ∀ channel : String,
      (connectPre channel = ConnectOutcome.noop ↔ jsTrim channel = "") ∧
      (jsTrim channel ≠ "" →
        connectPre channel = ConnectOutcome.attempt (normalizeChannel channel)) := by
  intro channel
  have hg : connectChannelGuard channel = true ↔ jsTrim channel = "" := by
    constructor
    · intro h
      rcases Bool.or_eq_true_iff.mp h with h1 | h1
      · have : channel = "" := by simpa using h1
        rw [this]
        rfl
      · simpa using h1
    · intro h
      exact Bool.or_eq_true_iff.mpr (Or.inr (by simpa using h))
  by_cases hc : connectChannelGuard channel = true
  · have ht := hg.mp hc
    constructor
    · simp [connectPre, hc, ht]
    · intro h
      exact absurd ht h
  · have ht : ¬jsTrim channel = "" := fun h => hc (hg.mpr h)
    constructor
    · simp [connectPre, hc, ht]
    · intro _
      simp [connectPre, hc]

/-- C4 witness: the amended theorem applied to a concrete non-empty
channel input. -/
theorem connect_guard_before_normalization_witness :
    connectPre "#Chan" = ConnectOutcome.attempt (normalizeChannel "#Chan") :=
  (connect_guard_before_normalization "#Chan").2 (by decide)

/-- C3 counterexample: `moderate('delete', ...)` with no `messageId`, on
an authenticated session with both id lookups succeeding, performs the
two user-lookup network calls and only then rejects — refuting the claim
that it rejects before any network call. -/
theorem moderate_delete_lookups_before_reject :
    moderate stExample "delete" "targetuser" none (some "99") (some "777") true
      = (Except.error "Message ID is required for deletion",
         [NetCall.userLookup "somechannel", NetCall.userLookup "targetuser"]) ∧
    (moderate stExample "delete" "targetuser" none (some "99") (some "777") true).2.length = 2 := by
  exact ⟨rfl, rfl⟩

/-- C3 amended: `moderate('delete', ...)` with `messageId` absent rejects
with the missing-message-id error before the DELETE REST request is
issued (no `deleteMessage` call appears in the trace) and without
mutating session state, but only after the broadcaster and target
id-lookup network calls have both been attempted. -/
theorem moderate_delete_missing_id_rejects_before_rest :
    ∀ (st : ClientState) (m u bId tId : String) (restOk : Bool),
      st.currentChannel ≠ "" → st.currentUserId = some m →
      moderate st "delete" u none (some bId) (some tId) restOk
        = (Except.error "Message ID is required for deletion",
           [NetCall.userLookup st.currentChannel, NetCall.userLookup u]) := by
  intro st m u bId tId restOk hch hid
  simp [moderate, hch, hid]

/-- C3 witness: the amended theorem at the concrete authenticated example
state. -/
theorem moderate_delete_missing_id_witness :
    moderate stExample "delete" "targetuser" none (some "99") (some "777") true
      = (Except.error "Message ID is required for deletion",
         [NetCall.userLookup stExample.currentChannel, NetCall.userLookup "targetuser"]) :=
  moderate_delete_missing_id_rejects_before_rest stExample "123" "targetuser" "99" "777" true
    (by decide) rfl

/-- C7: `sendMessage` rejects with a distinct error per violated
precondition — not-connected, then no-channel, then not-authenticated, in
that order — the three error messages are pairwise distinct, the
not-authenticated rejection (and every other rejection) delivers no
synthetic event, and a synthetic event is delivered only when the
transport send succeeded. -/
theorem send_message_preconditions :
    ∀ (st : ClientState) (msg : String) (sayOk : Bool),
      (st.client = false →
        sendMessage st msg sayOk = (Except.error "Not connected to a channel", [])) ∧
      (st.client = true → st.currentChannel = "" →
        sendMessage st msg sayOk = (Except.error "No active channel", [])) ∧
      (st.client = true → st.currentChannel ≠ "" → st.currentUsername = none →
        sendMessage st msg sayOk = (Except.error "Not authenticated", [])) ∧
      (("Not connected to a channel" == "No active channel") = false ∧
       ("No active channel" == "Not authenticated") = false ∧
       ("Not connected to a channel" == "Not authenticated") = false) ∧
      ((sendMessage st msg sayOk).2 ≠ [] →
        sayOk = true ∧ (sendMessage st msg sayOk).1 = Except.ok ()) := by
  intro st msg sayOk
  refine ⟨?_, ?_, ?_, ⟨by decide, by decide, by decide⟩, ?_⟩
  · intro h
    simp [sendMessage, h]
  · intro h1 h2
    simp [sendMessage, h1, h2]
  · intro h1 h2 h3
    simp [sendMessage, h1, h2, h3]
  · intro hne
    unfold sendMessage at hne ⊢
    by_cases h1 : st.client = false
    · simp [h1] at hne
    · by_cases h2 : st.currentChannel = ""
      · simp [h1, h2] at hne
      · cases hu : st.currentUsername with
        | none => simp [h1, h2, hu] at hne
        | some u =>
          by_cases h4 : sayOk
          · by_cases h5 : st.messageCallbackSet = true <;>
              simp [h1, h2, hu, h4, h5] at hne ⊢
          · simp [h1, h2, hu, h4] at hne

/-- C7 witness: on a connected, unauthenticated session the send rejects
with the not-authenticated error and delivers no synthetic event. -/
theorem send_message_preconditions_witness :
    sendMessage stNoAuthExample "hello" true = (Except.error "Not authenticated", []) :=
  (send_message_preconditions stNoAuthExample "hello" true).2.2.1 rfl (by decide) rfl

theorem mapGet_jsMapSet (m : List (String × String)) (k v k' : String) :
    mapGet (jsMapSet m k v) k' = if k = k' then some v else mapGet m k' := by
  induction m with
  | nil => simp [jsMapSet, mapGet]
  | cons hd tl ih =>
    obtain ⟨k0, v0⟩ := hd
    by_cases h : k0 = k
    · subst h
      by_cases h2 : k0 = k' <;> simp [jsMapSet, mapGet, h2]
    · by_cases h2 : k0 = k'
      · have h3 : ¬k = k' := fun he => h (h2.trans he.symm)
        subst h2
        simp [jsMapSet, mapGet, h, h3]
      · by_cases h3 : k = k'
        · subst h3
          simp [jsMapSet, mapGet, h, h2, ih]
        · simp [jsMapSet, mapGet, h, h2, h3, ih]

theorem mapGet_append (a b : List (String × String)) (k : String) :
    mapGet (a ++ b) k = orElseO (mapGet a k) (mapGet b k) := by
  induction a with
  | nil => simp [mapGet, orElseO]
  | cons hd tl ih =>
    obtain ⟨k0, v0⟩ := hd
    by_cases h : k0 = k <;> simp [mapGet, orElseO, h, ih]

theorem lastGet_cons (k0 v0 : String) (rest : List (String × String)) (k : String) :
    lastGet ((k0, v0) :: rest) k
      = orElseO (lastGet rest k) (if k0 = k then some v0 else none) := by
  simp [lastGet, mapGet_append, mapGet]

theorem mapGet_jsMapSetAll (src m : List (String × String)) (k : String) :
    mapGet (jsMapSetAll m src) k = orElseO (lastGet src k) (mapGet m k) := by
  induction src generalizing m with
  | nil => simp [jsMapSetAll, lastGet, mapGet, orElseO]
  | cons e rest ih =>
    obtain ⟨ek, ev⟩ := e
    have hstep : jsMapSetAll m ((ek, ev) :: rest) = jsMapSetAll (jsMapSet m ek ev) rest := rfl
    rw [hstep, ih, mapGet_jsMapSet, lastGet_cons]
    cases hl : lastGet rest k <;> by_cases h : ek = k <;> simp [orElseO, h]

theorem orElseO_none (a : Option String) : orElseO a none = a := by
  cases a <;> rfl

/-- C8: emote catalog merging is last-writer-wins by name: within FFZ
(and BTTV) global entries go in first and channel-scoped entries
overwrite same-named globals; across providers the later-fetched provider
(7TV over BTTV over FFZ) wins on name collision; and merging a global
catalog `A:u1` with a channel catalog `A:u2, B:u3` yields exactly
`A:u2, B:u3`. -/
theorem emote_merge_last_writer_wins :
    (∀ (g c : List (String × String)) (k : String),
      mapGet (fetchFFZEmotes g c) k = orElseO (lastGet c k) (lastGet g k)) ∧
    (∀ (g c s : List (String × String)) (k : String),
      mapGet (fetchBTTVEmotes g c s) k
        = orElseO (lastGet s k) (orElseO (lastGet c k) (lastGet g k))) ∧
    (∀ (ffz bttv sevenTv : List (String × String)) (k : String),
      mapGet (fetchAllEmotes ffz bttv sevenTv true) k
        = orElseO (lastGet sevenTv k) (orElseO (lastGet bttv k) (lastGet ffz k))) ∧
    (∀ (ffz bttv sevenTv : List (String × String)) (k : String),
      mapGet (fetchAllEmotes ffz bttv sevenTv false) k = lastGet ffz k) ∧
    fetchFFZEmotes [("A", "u1")] [("A", "u2"), ("B", "u3")]
      = [("A", "u2"), ("B", "u3")] := by
  refine ⟨?_, ?_, ?_, ?_, rfl⟩
  · intro g c k
    simp [fetchFFZEmotes, mapGet_jsMapSetAll, mapGet, orElseO_none]
  · intro g c s k
    simp [fetchBTTVEmotes, mapGet_jsMapSetAll, mapGet, orElseO_none]
  · intro ffz bttv sevenTv k
    simp [fetchAllEmotes, mapGet_jsMapSetAll, mapGet, orElseO_none]
  · intro ffz bttv sevenTv k
    simp [fetchAllEmotes, mapGet_jsMapSetAll, mapGet, orElseO_none]

theorem https_append_starts_http (u : String) :
    jsStartsWith ("https:" ++ u) "http" = true := rfl

theorem https_slashes_append_starts_http (u : String) :
    jsStartsWith ("https://" ++ u) "http" = true := rfl

theorem https_append_not_protocol_relative (u : String) :
    jsStartsWith ("https:" ++ u) "//" = false := rfl

theorem https_slashes_append_not_protocol_relative (u : String) :
    jsStartsWith ("https://" ++ u) "//" = false := rfl

theorem not_protocol_relative_of_starts_http (url : String)
    (h : jsStartsWith url "http" = true) : jsStartsWith url "//" = false := by
  unfold jsStartsWith at h ⊢
  have hh : "http".data = ['h', 't', 't', 'p'] := rfl
  have hs : "//".data = ['/', '/'] := rfl
  rw [hh] at h
  rw [hs]
  cases hd : url.data with
  | nil => rw [hd] at h; simp [charsStart] at h
  | cons c cs =>
    rw [hd] at h
    simp only [charsStart, Bool.and_eq_true, beq_iff_eq] at h
    obtain ⟨hc, _⟩ := h
    subst hc
    simp [charsStart]

/-- C9 counterexample: `ftp://cdn.example/x.png` has a scheme (in the RFC
sense of the spec's wording) yet is not returned unchanged — the code
prefixes it with `https://`, double-scheming it, because its criterion is
the literal prefix `http`, not "has a scheme". -/
theorem url_with_scheme_not_unchanged :
    specUrlHasScheme "ftp://cdn.example/x.png" = true ∧
    normalizeFFZUrl "ftp://cdn.example/x.png" = "https://ftp://cdn.example/x.png" ∧
    ("https://ftp://cdn.example/x.png" == "ftp://cdn.example/x.png") = false := by
  exact ⟨by decide, rfl, by decide⟩

/-- C9 amended: the normalization makes URLs absolute and is idempotent,
but the unchanged-URL criterion is the literal character prefix `http`
(covering `http:` and `https:`), not "has a scheme": protocol-relative
URLs (leading `//`) get `https:` prefixed, URLs starting with `http` are
returned unchanged (so already-absolute `http(s)` URLs are never
double-prefixed), and every other URL — including ones with a non-http
scheme such as `ftp:` — gets `https://` prefixed. -/
theorem url_normalization_branches :
    (∀ url : String, jsStartsWith url "//" = true →
      normalizeFFZUrl url = "https:" ++ url) ∧
    (∀ url : String, jsStartsWith url "http" = true →
      normalizeFFZUrl url = url) ∧
    (∀ url : String, jsStartsWith url "//" = false → jsStartsWith url "http" = false →
      normalizeFFZUrl url = "https://" ++ url) ∧
    (∀ url : String, normalizeFFZUrl (normalizeFFZUrl url) = normalizeFFZUrl url) := by
  refine ⟨?_, ?_, ?_, ?_⟩
  · intro url h
    simp [normalizeFFZUrl, h]
  · intro url h
    simp [normalizeFFZUrl, h, not_protocol_relative_of_starts_http url h]
  · intro url h1 h2
    simp [normalizeFFZUrl, h1, h2]
  · intro url
    by_cases h1 : jsStartsWith url "//" = true
    · rw [show normalizeFFZUrl url = "https:" ++ url by simp [normalizeFFZUrl, h1]]
      simp [normalizeFFZUrl, https_append_not_protocol_relative,
        https_append_starts_http]
    · by_cases h2 : jsStartsWith url "http" = true
      · rw [show normalizeFFZUrl url = url by
          simp [normalizeFFZUrl, h2, not_protocol_relative_of_starts_http url h2]]
        simp [normalizeFFZUrl, h2, not_protocol_relative_of_starts_http url h2]
      · rw [show normalizeFFZUrl url = "https://" ++ url by
          simp [normalizeFFZUrl, h1, h2]]
        simp [normalizeFFZUrl, https_slashes_append_not_protocol_relative,
          https_slashes_append_starts_http]

/-- C9 witness: the protocol-relative branch of the amended theorem at
the spec's own example URL. -/
theorem url_normalization_branches_witness :
    normalizeFFZUrl "//cdn.example/x.png" = "https:" ++ "//cdn.example/x.png" :=
  url_normalization_branches.1 "//cdn.example/x.png" (by decide)

end TwitchChatViewer
